import Mathlib

/-!
Verification of the stock-portfolio-daily pipeline (src/main.py).

The script's numeric values are Python floats; they are embedded as exact
rationals together with an explicit not-a-number sentinel (`PFloat`).
Dates are embedded as calendar triples with the `DD/MM/YYYY` parser made
explicit; pandas `to_datetime(errors="coerce")` becomes an `Option`-valued
parse.  The HTTP layer is abstracted as an environment function returning
`Except`: `.error` is a raised request exception (non-2xx status or
transport error), `.ok` a decoded JSON body.  "Today" (the wall clock read
by `pd.Timestamp.today().normalize()`) is passed as an explicit date
parameter.
-/

namespace StockPortfolio

/-- A Python float as used by the script: an exact rational or NaN. -/
inductive PFloat where
  | num (q : ℚ)
  | nan
  deriving DecidableEq, Repr

/-- `np.isnan`. -/
def PFloat.isnan : PFloat → Bool
  | .nan => true
  | .num _ => false

/-- Python float division with nonzero denominator; NaN propagates. -/
def PFloat.div : PFloat → PFloat → PFloat
  | .num a, .num b => .num (a / b)
  | _, _ => .nan

/-- `safe_ratio(current_price, report_eval)` from src/main.py:
returns None when `current_price` is None, or `report_eval` is None, equal
to 0, or NaN; otherwise divides. -/
def safe_ratio (current_price report_eval : Option PFloat) : Option PFloat :=
  match current_price, report_eval with
  | none, _ => none
  | some _, none => none
  | some _, some .nan => none
  | some cp, some (.num q) =>
      if q = 0 then none else some (cp.div (.num q))

/-- `row_color_by_ratio(r)` from src/main.py: purple for `r ≤ 0.8`,
green for `0.8 < r < 0.9`, empty otherwise (None and NaN included). -/
def row_color_by_ratio (r : Option PFloat) : String :=
  match r with
  | some (.num q) =>
      if q ≤ 4/5 then "#6E0080"
      else if 4/5 < q ∧ q < 9/10 then "#00803E"
      else ""
  | _ => ""

/-! ### Dates and the `DD/MM/YYYY` parser -/

/-- A calendar date (year, month, day). -/
structure Date where
  year : Nat
  month : Nat
  day : Nat
  deriving DecidableEq, Repr

/-- Order key: matches chronological order on valid dates
(month ≤ 12, day ≤ 31). -/
def Date.key (d : Date) : Nat := d.year * 10000 + d.month * 100 + d.day

/-- Timestamp comparison `a ≤ b`. -/
def Date.le (a b : Date) : Bool := decide (a.key ≤ b.key)

/-- Gregorian leap year. -/
def isLeap (y : Nat) : Bool :=
  (y % 4 == 0 && y % 100 != 0) || y % 400 == 0

/-- Days in a month. -/
def daysInMonth (y m : Nat) : Nat :=
  if m = 2 then (if isLeap y then 29 else 28)
  else if m = 4 ∨ m = 6 ∨ m = 9 ∨ m = 11 then 30
  else 31

/-- Split a character list on `'/'`. -/
def splitSlashAux : List Char → List Char → List (List Char)
  | [], acc => [acc.reverse]
  | c :: cs, acc =>
      if c = '/' then acc.reverse :: splitSlashAux cs []
      else splitSlashAux cs (c :: acc)

/-- Decimal value of a digit list (most significant first). -/
def digitsToNat : List Char → Nat → Nat
  | [], acc => acc
  | c :: cs, acc => digitsToNat cs (acc * 10 + (c.toNat - '0'.toNat))

/-- A nonempty all-digit group of at most `k` characters. -/
def digitGroup (cs : List Char) (k : Nat) : Prop :=
  cs ≠ [] ∧ cs.all Char.isDigit = true ∧ cs.length ≤ k

instance (cs : List Char) (k : Nat) : Decidable (digitGroup cs k) :=
  inferInstanceAs (Decidable (_ ∧ _ ∧ _))

/-- Strict `DD/MM/YYYY` parsing, as `pd.to_datetime(x, "%d/%m/%Y")`:
three slash-separated digit groups (day and month at most two digits,
year at most four), forming a valid calendar date. -/
def parse_ddmmyyyy (s : String) : Option Date :=
  match splitSlashAux s.toList [] with
  | [ds, ms, ys] =>
      if digitGroup ds 2 ∧ digitGroup ms 2 ∧ digitGroup ys 4 then
        let d := digitsToNat ds 0
        let m := digitsToNat ms 0
        let y := digitsToNat ys 0
        if 1 ≤ y ∧ 1 ≤ m ∧ m ≤ 12 ∧ 1 ≤ d ∧ d ≤ daysInMonth y m then
          some ⟨y, m, d⟩
        else none
      else none
  | _ => none

/-- `pd.DateOffset` year subtraction: Feb 29 lands on Feb 28 when the
target year is not leap. -/
def subYears (d : Date) (n : Nat) : Date :=
  let y := d.year - n
  if d.month = 2 ∧ d.day = 29 ∧ isLeap y = false then ⟨y, 2, 28⟩
  else ⟨y, d.month, d.day⟩

/-! ### Raw reports and the aggregator -/

/-- A `targetPrice` cell as seen by `pd.to_numeric(errors="coerce")`:
either coercible to a number or not. -/
inductive TVal where
  | num (q : ℚ)
  | invalid
  deriving DecidableEq, Repr

/-- One raw analyst-report record; `none` marks an absent field. -/
structure RawReport where
  issueDate : Option String
  targetPrice : Option TVal
  source : Option String
  deriving DecidableEq, Repr

/-- `pd.to_numeric(x, errors="coerce")`: NaN for an absent or
non-coercible cell. -/
def to_numeric : Option TVal → Option ℚ
  | some (.num q) => some q
  | _ => none

/-- The parsed issue date of a record (`NaT` = `none`). -/
def parsedIssueDate (r : RawReport) : Option Date :=
  r.issueDate.bind parse_ddmmyyyy

/-- The aggregator's row filter: issue date parses and is on or after the
cutoff. -/
def inWindow (cutoff : Date) (r : RawReport) : Bool :=
  match parsedIssueDate r with
  | some d => Date.le cutoff d
  | none => false

/-- `build_one_year_report_stats(raw_rows, lookback_years)` from
src/main.py, with "today" explicit.  Returns
`(avg_target, diversity, n_reports)`. -/
def build_one_year_report_stats (raw_rows : List RawReport) (today : Date)
    (lookback_years : Nat) : Option ℚ × Nat × Nat :=
  if raw_rows = [] then (none, 0, 0)
  else if raw_rows.all (fun r => r.issueDate = none) then (none, 0, 0)
  else
    let cutoff := subYears today lookback_years
    let df_1y := raw_rows.filter (inWindow cutoff)
    if df_1y = [] then (none, 0, 0)
    else
      let nums := df_1y.filterMap (fun r => to_numeric r.targetPrice)
      let avg_target : Option ℚ :=
        if nums = [] then none else some (nums.sum / (nums.length : ℚ))
      let diversity :=
        if raw_rows.all (fun r => r.source = none) then 0
        else ((df_1y.filterMap (fun r => r.source)).dedup).length
      (avg_target, diversity, df_1y.length)

/-! ### The paginator -/

/-- One page's decoded JSON body: the report array may sit under `data`,
`items` or `result` (each possibly absent). -/
structure PageJson (α : Type) where
  data : Option (List α)
  items : Option (List α)
  result : Option (List α)
  deriving DecidableEq, Repr

/-- Python's `x or y` on an optional list: falls through on `None` and on
the empty list. -/
def orFalsy {α : Type} (o : Option (List α)) (alt : List α) : List α :=
  match o with
  | some [] => alt
  | some (x :: xs) => x :: xs
  | none => alt

/-- `js.get("data") or js.get("items") or js.get("result") or []`. -/
def extractRows {α : Type} (js : PageJson α) : List α :=
  orFalsy js.data (orFalsy js.items (orFalsy js.result []))

/-- `fetch_all_reports(ticker, size, max_pages, page_start)` from
src/main.py.  The network is the environment `pages : page index ↦ Except`
(`.error` = the request raised).  Fuel counts remaining allowed requests.
Besides the concatenated rows the model returns the trace of page indices
actually requested. -/
def fetch_all_reports {ε α : Type} (pages : Nat → Except ε (PageJson α))
    (size : Nat) : Nat → Nat → Except ε (List α × List Nat)
  | 0, _ => .ok ([], [])
  | max_pages + 1, page =>
      match pages page with
      | .error e => .error e
      | .ok js =>
          let rows := extractRows js
          if rows.isEmpty = true then .ok ([], [page])
          else if rows.length < size then .ok (rows, [page])
          else
            match fetch_all_reports pages size max_pages (page + 1) with
            | .error e => .error e
            | .ok (rest, reqs) => .ok (rows ++ rest, page :: reqs)

/-- An error-free page environment. -/
def okPages {α : Type} (pages : Nat → PageJson α) :
    Nat → Except Unit (PageJson α) :=
  fun p => .ok (pages p)

/-! ### The per-ticker pipeline (`main`) -/

def REPORT_FACTOR : ℚ := 9/10
def BARGAIN_FACTOR : ℚ := 8/10
def LOOKBACK_YEARS : Nat := 1
def PAGE_SIZE : Nat := 50
def MAX_PAGES : Nat := 50

/-- The per-ticker external world: the quote endpoint's outcome and the
report-list endpoint's outcome per page.  An error value carries the
Python exception's type name. -/
structure TickerEnv where
  price : Except String PFloat
  pages : Nat → Except String (PageJson RawReport)

/-- One output row (the dict built per ticker in `main`). -/
structure Row where
  stockCode : String
  currentPrice : Option PFloat
  reportEvaluation : Option ℚ
  diversity : Nat
  acceptablePrice : Option ℚ
  ratio : Option PFloat
  reports1y : Nat
  errors : String
  deriving DecidableEq, Repr

/-- The row's Current Price after the first try/except: the fetched price
on success, still None on failure. -/
def priceFetched (env : TickerEnv) : Option PFloat :=
  match env.price with
  | .ok p => some p
  | .error _ => none

/-- The error tag appended by the first try/except on a price failure. -/
def priceErrTag (env : TickerEnv) : String :=
  match env.price with
  | .ok _ => ""
  | .error e => "price_err:" ++ e ++ "; "

/-- The body of `main`'s per-ticker loop in src/main.py: price fetch in
its own try/except, then report fetch + aggregation + valuation in a
second try/except; every failure only annotates `errors`. -/
def process_ticker (today : Date) (env : TickerEnv) (ticker : String) : Row :=
  match fetch_all_reports env.pages PAGE_SIZE MAX_PAGES 0 with
  | .error e =>
      ⟨ticker, priceFetched env, none, 0, none, none, 0,
        priceErrTag env ++ "report_err:" ++ e ++ "; "⟩
  | .ok (raw, _) =>
      let stats := build_one_year_report_stats raw today LOOKBACK_YEARS
      match stats.1 with
      | some a =>
          ⟨ticker, priceFetched env, some (a * REPORT_FACTOR), stats.2.1,
            some (a * REPORT_FACTOR * BARGAIN_FACTOR),
            safe_ratio (priceFetched env) (some (.num (a * REPORT_FACTOR))),
            stats.2.2, priceErrTag env⟩
      | none =>
          ⟨ticker, priceFetched env, none, stats.2.1, none, none, stats.2.2,
            priceErrTag env ++ "no_1y_reports_or_no_targetPrice; "⟩

/-- `main`'s accumulation: one row per ticker, in input order. -/
def main (today : Date) (envs : String → TickerEnv)
    (tickers : List String) : List Row :=
  tickers.map (fun t => process_ticker today (envs t) t)

/-! ### Formatters -/

/-- Python `round()`: round half to even. -/
def pyRound (q : ℚ) : ℤ :=
  let f := ⌊q⌋
  let frac := q - f
  if frac < 1/2 then f
  else if 1/2 < frac then f + 1
  else if f % 2 = 0 then f else f + 1

/-- Insert `,` before every char whose distance from the string's right
end is a positive multiple of 3 (input: digits reversed). -/
def commaEvery3 : List Char → Nat → List Char
  | [], _ => []
  | c :: cs, k =>
      if k % 3 = 0 ∧ k ≠ 0 then ',' :: c :: commaEvery3 cs (k + 1)
      else c :: commaEvery3 cs (k + 1)

/-- `f"{n:,}"` for a natural number. -/
def natCommas (n : Nat) : String :=
  String.mk ((commaEvery3 (Nat.toDigits 10 n).reverse 0).reverse)

/-- `f"{i:,}"` for an integer. -/
def intCommas (i : ℤ) : String :=
  if i < 0 then "-" ++ natCommas i.natAbs else natCommas i.natAbs

/-- `fmt_int_commas(x)` from src/main.py. -/
def fmt_int_commas (x : Option PFloat) : String :=
  match x with
  | none => ""
  | some .nan => ""
  | some (.num q) => intCommas (pyRound q)

/-- Zero-pad a natural number below 1000 to three digits. -/
def pad3 (n : Nat) : String :=
  if n < 10 then "00" ++ Nat.repr n
  else if n < 100 then "0" ++ Nat.repr n
  else Nat.repr n

/-- `fmt_ratio(x)` from src/main.py: `f"{float(x):.3f}"` on the rational
model (half-even rounding at the third decimal). -/
def fmt_ratio (x : Option PFloat) : String :=
  match x with
  | none => ""
  | some .nan => ""
  | some (.num q) =>
      let n := pyRound (q * 1000)
      (if q < 0 then "-" else "") ++
        Nat.repr (n.natAbs / 1000) ++ "." ++ pad3 (n.natAbs % 1000)

/-! ### Theorems -/

/-- C1 counterexample: with a NaN current price and a valid nonzero
report evaluation, `safe_ratio` returns NaN, not null — the claim's
"in every other case it returns null" fails at this input. -/
theorem safe_ratio_nan_price_counterexample :
    safe_ratio (some PFloat.nan) (some (PFloat.num 1)) = some PFloat.nan ∧
    some PFloat.nan ≠ (none : Option PFloat) := by
  constructor
  · simp [safe_ratio, PFloat.div]
  · simp

/-- C1 (amended): `safe_ratio` returns the quotient when both operands are
present numbers and the report evaluation is nonzero and non-NaN; it
returns null when the current price is null or the report evaluation is
null, zero, or NaN; but a NaN current price (with a valid nonzero report
evaluation) yields NaN, not null.  Being a total function, it never
raises. -/
theorem safe_ratio_spec (cp re : Option PFloat) :
    (cp = none → safe_ratio cp re = none) ∧
    (re = none → safe_ratio cp re = none) ∧
    (re = some (PFloat.num 0) → safe_ratio cp re = none) ∧
    (re = some PFloat.nan → safe_ratio cp re = none) ∧
    (∀ p q : ℚ, cp = some (.num p) → re = some (.num q) → q ≠ 0 →
      safe_ratio cp re = some (.num (p / q))) ∧
    (∀ q : ℚ, cp = some PFloat.nan → re = some (.num q) → q ≠ 0 →
      safe_ratio cp re = some PFloat.nan) := by
  refine ⟨?_, ?_, ?_, ?_, ?_, ?_⟩
  · rintro rfl; rfl
  · rintro rfl; cases cp <;> rfl
  · rintro rfl; cases cp <;> simp [safe_ratio]
  · rintro rfl; cases cp <;> rfl
  · rintro p q rfl rfl hq; simp [safe_ratio, PFloat.div, hq]
  · rintro q rfl rfl hq; simp [safe_ratio, PFloat.div, hq]

/-- C1 witness: 90 / 110 at concrete numeric operands. -/
theorem safe_ratio_spec_witness :
    safe_ratio (some (PFloat.num 90)) (some (PFloat.num 110)) =
      some (PFloat.num (90 / 110)) :=
  (safe_ratio_spec (some (PFloat.num 90)) (some (PFloat.num 110))).2.2.2.2.1
    90 110 rfl rfl (by norm_num)

/-- C2: the highlight classification.  The strong color appears exactly
for numeric ratios `≤ 0.8`, the medium color exactly for `0.8 < r < 0.9`;
the two colors are distinct; null and NaN ratios, and ratios `≥ 0.9`, get
no highlight. -/
theorem row_color_by_ratio_spec (r : Option PFloat) :
    (row_color_by_ratio r = "#6E0080" ↔
      ∃ q : ℚ, r = some (PFloat.num q) ∧ q ≤ 4/5) ∧
    (row_color_by_ratio r = "#00803E" ↔
      ∃ q : ℚ, r = some (PFloat.num q) ∧ 4/5 < q ∧ q < 9/10) ∧
    ("#6E0080" ≠ "#00803E") ∧
    (r = none → row_color_by_ratio r = "") ∧
    (r = some PFloat.nan → row_color_by_ratio r = "") ∧
    (∀ q : ℚ, r = some (PFloat.num q) → 9/10 ≤ q →
      row_color_by_ratio r = "") := by
  have hcol : ("#6E0080" : String) ≠ "#00803E" := by decide
  have hne1 : ("#00803E" : String) ≠ "#6E0080" := by decide
  have hne2 : ("" : String) ≠ "#6E0080" := by decide
  have hne3 : ("" : String) ≠ "#00803E" := by decide
  refine ⟨?_, ?_, hcol, ?_, ?_, ?_⟩
  · constructor
    · intro h
      match r with
      | none => exact absurd h (by decide)
      | some .nan => exact absurd h (by decide)
      | some (.num q) =>
          refine ⟨q, rfl, ?_⟩
          by_cases hq : q ≤ 4/5
          · exact hq
          · exfalso
            simp only [row_color_by_ratio, if_neg hq] at h
            split at h
            · exact hne1 h
            · exact hne2 h
    · rintro ⟨q, rfl, hq⟩
      simp [row_color_by_ratio, hq]
  · constructor
    · intro h
      match r with
      | none => exact absurd h (by decide)
      | some .nan => exact absurd h (by decide)
      | some (.num q) =>
          refine ⟨q, rfl, ?_⟩
          by_cases hq : q ≤ 4/5
          · exfalso
            simp only [row_color_by_ratio, if_pos hq] at h
            exact hcol h
          · by_cases hq2 : 4/5 < q ∧ q < 9/10
            · exact hq2
            · exfalso
              simp only [row_color_by_ratio, if_neg hq, if_neg hq2] at h
              exact hne3 h
    · rintro ⟨q, rfl, hq1, hq2⟩
      have hq : ¬ q ≤ 4/5 := not_le.mpr hq1
      simp [row_color_by_ratio, hq, hq1, hq2]
  · rintro rfl; rfl
  · rintro rfl; rfl
  · rintro q rfl hq
    have h1 : ¬ q ≤ 4/5 := by
      intro h; linarith [h, hq]
    have h2 : ¬ (4/5 < q ∧ q < 9/10) := by
      rintro ⟨-, h⟩; linarith
    simp [row_color_by_ratio, h1, h2]

/-- C2 witness: concrete ratios in each band. -/
theorem row_color_by_ratio_spec_witness :
    row_color_by_ratio (some (PFloat.num (7/10))) = "#6E0080" ∧
    row_color_by_ratio (some (PFloat.num (85/100))) = "#00803E" ∧
    row_color_by_ratio (some (PFloat.num (95/100))) = "" :=
  ⟨(row_color_by_ratio_spec (some (PFloat.num (7/10)))).1.mpr
      ⟨7/10, rfl, by norm_num⟩,
   (row_color_by_ratio_spec (some (PFloat.num (85/100)))).2.1.mpr
      ⟨85/100, rfl, by norm_num, by norm_num⟩,
   (row_color_by_ratio_spec (some (PFloat.num (95/100)))).2.2.2.2.2
      (95/100) rfl (by norm_num)⟩

/-- Helper: a report with no issue-date string is never in the window. -/
theorem inWindow_of_issueDate_none {cutoff : Date} {r : RawReport}
    (h : r.issueDate = none) : inWindow cutoff r = false := by
  simp [inWindow, parsedIssueDate, h]

/-- C8: the aggregator's zero-stats invariant.  A zero report count forces
a null average and zero diversity; and each degenerate input — the empty
list, a list with no `issueDate` field at all, and a list with no
parseable in-window record — yields exactly `(null, 0, 0)`. -/
theorem build_stats_zero_invariant (raw : List RawReport) (today : Date)
    (ly : Nat) :
    ((build_one_year_report_stats raw today ly).2.2 = 0 →
      (build_one_year_report_stats raw today ly).1 = none ∧
      (build_one_year_report_stats raw today ly).2.1 = 0) ∧
    (raw = [] → build_one_year_report_stats raw today ly = (none, 0, 0)) ∧
    ((∀ r ∈ raw, r.issueDate = none) →
      build_one_year_report_stats raw today ly = (none, 0, 0)) ∧
    (raw.filter (inWindow (subYears today ly)) = [] →
      build_one_year_report_stats raw today ly = (none, 0, 0)) := by
  by_cases h1 : raw = []
  · subst h1
    refine ⟨?_, fun _ => rfl, fun _ => rfl, fun _ => rfl⟩
    intro _
    exact ⟨rfl, rfl⟩
  · by_cases h2 : raw.all (fun r => r.issueDate = none)
    · have hbuild : build_one_year_report_stats raw today ly = (none, 0, 0) := by
        simp only [build_one_year_report_stats, if_neg h1, h2, if_true]
      refine ⟨?_, fun h => absurd h h1, fun _ => hbuild, fun _ => hbuild⟩
      intro _
      rw [hbuild]
      exact ⟨rfl, rfl⟩
    · by_cases h3 : raw.filter (inWindow (subYears today ly)) = []
      · have hbuild : build_one_year_report_stats raw today ly = (none, 0, 0) := by
          simp only [build_one_year_report_stats, if_neg h1, h2]
          simp only [Bool.false_eq_true, if_false, h3, if_true]
        refine ⟨?_, fun h => absurd h h1, fun _ => hbuild, fun _ => hbuild⟩
        intro _
        rw [hbuild]
        exact ⟨rfl, rfl⟩
      · have hbuild :
            (build_one_year_report_stats raw today ly).2.2 =
              (raw.filter (inWindow (subYears today ly))).length := by
          simp only [build_one_year_report_stats, if_neg h1, h2]
          simp only [Bool.false_eq_true, if_false, if_neg h3]
        refine ⟨?_, fun h => absurd h h1, ?_, fun h => absurd h h3⟩
        · intro hc
          rw [hbuild] at hc
          exact absurd (List.length_eq_zero.mp hc) h3
        · intro hall
          exfalso
          apply h2
          exact List.all_eq_true.mpr (fun r hr => decide_eq_true (hall r hr))

/-- C8 witness: the empty input yields null average, zero diversity, zero
count. -/
theorem build_stats_zero_invariant_witness :
    build_one_year_report_stats [] ⟨2024, 6, 1⟩ 1 = (none, 0, 0) :=
  (build_stats_zero_invariant [] ⟨2024, 6, 1⟩ 1).2.1 rfl

/-- C3: the aggregator's time window.  The report count is exactly the
number of records kept by the filter, and a record passes the filter
precisely when it belongs to the input, its `issueDate` string is present
and parses under `DD/MM/YYYY`, and the parsed date is on or after
`cutoff = today − lookbackYears` years; an unparseable or absent
`issueDate` excludes the record regardless of its other fields. -/
theorem build_stats_window_filter (raw : List RawReport) (today : Date)
    (ly : Nat) :
    (build_one_year_report_stats raw today ly).2.2 =
      (raw.filter (inWindow (subYears today ly))).length ∧
    (∀ r : RawReport, r ∈ raw.filter (inWindow (subYears today ly)) ↔
      (r ∈ raw ∧ ∃ (s : String) (d : Date), r.issueDate = some s ∧
        parse_ddmmyyyy s = some d ∧ Date.le (subYears today ly) d = true)) := by
  constructor
  · by_cases h1 : raw = []
    · subst h1; rfl
    · by_cases h2 : raw.all (fun r => r.issueDate = none)
      · have hfil : raw.filter (inWindow (subYears today ly)) = [] := by
          apply List.filter_eq_nil_iff.mpr
          intro r hr
          have : r.issueDate = none :=
            of_decide_eq_true (List.all_eq_true.mp h2 r hr)
          simp [inWindow_of_issueDate_none this]
        simp only [build_one_year_report_stats, if_neg h1, h2, if_true, hfil]
        rfl
      · by_cases h3 : raw.filter (inWindow (subYears today ly)) = []
        · simp only [build_one_year_report_stats, if_neg h1, h2]
          simp only [Bool.false_eq_true, if_false, h3, if_true]
          rfl
        · simp only [build_one_year_report_stats, if_neg h1, h2]
          simp only [Bool.false_eq_true, if_false, if_neg h3]
  · intro r
    rw [List.mem_filter]
    constructor
    · rintro ⟨hmem, hw⟩
      refine ⟨hmem, ?_⟩
      unfold inWindow at hw
      match hd : parsedIssueDate r with
      | none => rw [hd] at hw; exact absurd hw (by simp)
      | some d =>
          rw [hd] at hw
          obtain ⟨s, hs, hp⟩ := Option.bind_eq_some.mp hd
          exact ⟨s, d, hs, hp, hw⟩
    · rintro ⟨hmem, s, d, hs, hp, hle⟩
      refine ⟨hmem, ?_⟩
      unfold inWindow
      have : parsedIssueDate r = some d := by
        simp [parsedIssueDate, hs, hp]
      rw [this]
      exact hle

/-- C3 witness: the spec's worked example — two in-window records, one
record four years stale; only the former are counted. -/
theorem build_stats_window_filter_witness :
    (build_one_year_report_stats
      [⟨some "01/01/2024", some (TVal.num 100), some "A"⟩,
       ⟨some "01/01/2024", some (TVal.num 120), some "B"⟩,
       ⟨some "01/01/2020", some (TVal.num 999), some "C"⟩]
      ⟨2024, 6, 1⟩ 1).2.2 = 2 := by
  rw [(build_stats_window_filter
    [⟨some "01/01/2024", some (TVal.num 100), some "A"⟩,
     ⟨some "01/01/2024", some (TVal.num 120), some "B"⟩,
     ⟨some "01/01/2020", some (TVal.num 999), some "C"⟩]
    ⟨2024, 6, 1⟩ 1).1]
  decide

/-- C4 counterexample: one in-window record with a non-numeric
`targetPrice` and no `source`.  The average is null and the report count
is 1 as the claim says, but `sourceDiversity` is 0, so it does not "keep a
positive value". -/
theorem build_stats_diversity_counterexample :
    build_one_year_report_stats
      [⟨some "01/01/2024", some TVal.invalid, none⟩] ⟨2024, 6, 1⟩ 1 =
      (none, 0, 1) ∧
    ¬ 0 < (build_one_year_report_stats
      [⟨some "01/01/2024", some TVal.invalid, none⟩] ⟨2024, 6, 1⟩ 1).2.1 := by
  constructor
  · decide
  · decide

/-- C4 (amended): within a nonempty filtered set, a record with a missing
or non-numeric `targetPrice` still counts toward `reportCount` and toward
`sourceDiversity` (both are invariant under arbitrary rewriting of every
record's `targetPrice`) but is excluded from `averageTarget`, which is the
mean of the coercible numeric target prices alone; when no filtered record
is coercible the average is null (not zero) while `reportCount` stays
positive and `sourceDiversity` keeps its value, the distinct-source count
(which is zero when no filtered record carries a source). -/
theorem build_stats_target_price_policy (raw : List RawReport) (today : Date)
    (ly : Nat)
    (hne : raw.filter (inWindow (subYears today ly)) ≠ []) :
    (build_one_year_report_stats raw today ly).2.2 =
      (raw.filter (inWindow (subYears today ly))).length ∧
    0 < (build_one_year_report_stats raw today ly).2.2 ∧
    (build_one_year_report_stats raw today ly).1 =
      (if (raw.filter (inWindow (subYears today ly))).filterMap
            (fun r => to_numeric r.targetPrice) = [] then none
       else some
        (((raw.filter (inWindow (subYears today ly))).filterMap
            (fun r => to_numeric r.targetPrice)).sum /
          (((raw.filter (inWindow (subYears today ly))).filterMap
            (fun r => to_numeric r.targetPrice)).length : ℚ))) ∧
    ((raw.filter (inWindow (subYears today ly))).filterMap
        (fun r => to_numeric r.targetPrice) = [] →
      (build_one_year_report_stats raw today ly).1 = none) ∧
    (∀ f : RawReport → Option TVal,
      (build_one_year_report_stats
        (raw.map (fun r => ⟨r.issueDate, f r, r.source⟩)) today ly).2 =
        (build_one_year_report_stats raw today ly).2) := by
  have hraw : raw ≠ [] := by
    rintro rfl
    exact hne rfl
  obtain ⟨r0, hr0⟩ := List.exists_mem_of_ne_nil _ hne
  obtain ⟨hr0m, hr0w⟩ := List.mem_filter.mp hr0
  have hsome : r0.issueDate ≠ none := by
    intro h
    rw [inWindow_of_issueDate_none h] at hr0w
    exact Bool.false_ne_true hr0w
  have h2 : raw.all (fun r => r.issueDate = none) = false := by
    rw [Bool.eq_false_iff]
    intro hall
    exact hsome (of_decide_eq_true (List.all_eq_true.mp hall r0 hr0m))
  have key : build_one_year_report_stats raw today ly =
      (if (raw.filter (inWindow (subYears today ly))).filterMap
            (fun r => to_numeric r.targetPrice) = [] then none
       else some
        (((raw.filter (inWindow (subYears today ly))).filterMap
            (fun r => to_numeric r.targetPrice)).sum /
          (((raw.filter (inWindow (subYears today ly))).filterMap
            (fun r => to_numeric r.targetPrice)).length : ℚ)),
       if raw.all (fun r => r.source = none) then 0
       else ((raw.filter (inWindow (subYears today ly))).filterMap
          (fun r => r.source)).dedup.length,
       (raw.filter (inWindow (subYears today ly))).length) := by
    simp only [build_one_year_report_stats, if_neg hraw, h2,
      Bool.false_eq_true, if_false, if_neg hne]
  refine ⟨by rw [key], ?_, by rw [key], ?_, ?_⟩
  · rw [key]
    exact List.length_pos.mpr hne
  · intro hnums
    rw [key]
    simp only [if_pos hnums]
  · intro f
    set c := subYears today ly with hc
    set g : RawReport → RawReport :=
      (fun r => ⟨r.issueDate, f r, r.source⟩) with hg
    have hcomp : inWindow c ∘ g = inWindow c := rfl
    have hmapfil : (raw.map g).filter (inWindow c) =
        (raw.filter (inWindow c)).map g := by
      rw [List.filter_map, hcomp]
    have hmraw : raw.map g ≠ [] := by
      simpa using hraw
    have hmfil : (raw.map g).filter (inWindow c) ≠ [] := by
      rw [hmapfil]
      simpa using hne
    have hmall : (raw.map g).all (fun r => r.issueDate = none) = false := by
      rw [List.all_map]
      exact h2
    have hmsrc : (raw.map g).all (fun r => r.source = none) =
        raw.all (fun r => r.source = none) := by
      rw [List.all_map]
      rfl
    have hfm : ((raw.map g).filter (inWindow c)).filterMap
        (fun r => r.source) =
        (raw.filter (inWindow c)).filterMap (fun r => r.source) := by
      rw [hmapfil, List.filterMap_map]
      rfl
    have key2 : build_one_year_report_stats (raw.map g) today ly =
        (if ((raw.map g).filter (inWindow c)).filterMap
              (fun r => to_numeric r.targetPrice) = [] then none
         else some
          ((((raw.map g).filter (inWindow c)).filterMap
              (fun r => to_numeric r.targetPrice)).sum /
            ((((raw.map g).filter (inWindow c)).filterMap
              (fun r => to_numeric r.targetPrice)).length : ℚ)),
         if (raw.map g).all (fun r => r.source = none) then 0
         else (((raw.map g).filter (inWindow c)).filterMap
            (fun r => r.source)).dedup.length,
         ((raw.map g).filter (inWindow c)).length) := by
      simp only [build_one_year_report_stats, if_neg hmraw, hmall,
        Bool.false_eq_true, if_false, if_neg hmfil, hc]
    rw [key, key2, hmsrc, hfm, hmapfil, List.length_map]

/-- C4 witness: a filtered set holding one record with an invalid target
price and one with a valid one — the invalid record still counts. -/
theorem build_stats_target_price_policy_witness :
    ([⟨some "01/01/2024", some TVal.invalid, some "A"⟩,
      (⟨some "01/01/2024", some (TVal.num 100), some "B"⟩ : RawReport)].filter
        (inWindow (subYears ⟨2024, 6, 1⟩ 1)) ≠ []) ∧
    (build_one_year_report_stats
      [⟨some "01/01/2024", some TVal.invalid, some "A"⟩,
       ⟨some "01/01/2024", some (TVal.num 100), some "B"⟩]
      ⟨2024, 6, 1⟩ 1).2.2 = 2 :=
  ⟨by decide,
   by
    rw [(build_stats_target_price_policy
      [⟨some "01/01/2024", some TVal.invalid, some "A"⟩,
       ⟨some "01/01/2024", some (TVal.num 100), some "B"⟩]
      ⟨2024, 6, 1⟩ 1 (by decide)).1]
    decide⟩

set_option maxRecDepth 10000 in
/-- Helper: `pad3` always renders exactly three characters below 1000. -/
theorem pad3_length : ∀ m, m < 1000 → (pad3 m).length = 3 := by decide

/-- Helper: half-even rounding lands on a nearest integer. -/
theorem pyRound_nearest (q : ℚ) : |((pyRound q : ℤ) : ℚ) - q| ≤ 1/2 := by
  have h0 : ((⌊q⌋ : ℤ) : ℚ) ≤ q := Int.floor_le q
  have h1 : q < ⌊q⌋ + 1 := Int.lt_floor_add_one q
  simp only [pyRound]
  split_ifs with ha hb hev
  · rw [abs_le]
    constructor <;> push_cast <;> linarith
  · rw [abs_le]
    constructor <;> push_cast <;> linarith
  · rw [abs_le]
    constructor <;> push_cast <;> linarith
  · rw [abs_le]
    constructor <;> push_cast <;> linarith

/-- C9: the two formatters.  Null and NaN inputs yield the empty string;
a numeric price formats as its half-even-rounded integer with thousands
separators (the rounded value is within 1/2 of the input); a numeric
ratio formats with exactly three digits after the decimal point, e.g.
90/110 as "0.818". -/
theorem formatters_spec :
    fmt_int_commas none = "" ∧
    fmt_int_commas (some PFloat.nan) = "" ∧
    (∀ q : ℚ, fmt_int_commas (some (PFloat.num q)) = intCommas (pyRound q)) ∧
    (∀ q : ℚ, |((pyRound q : ℤ) : ℚ) - q| ≤ 1/2) ∧
    fmt_int_commas (some (PFloat.num 1234567)) = "1,234,567" ∧
    fmt_ratio none = "" ∧
    fmt_ratio (some PFloat.nan) = "" ∧
    fmt_ratio (some (PFloat.num (90/110))) = "0.818" ∧
    (∀ q : ℚ, ∃ s t : String,
      fmt_ratio (some (PFloat.num q)) = s ++ "." ++ t ∧ t.length = 3) := by
  refine ⟨rfl, rfl, fun _ => rfl, pyRound_nearest, ?_, rfl, rfl, ?_, ?_⟩
  · have hr : pyRound (1234567 : ℚ) = 1234567 := by
      simp only [pyRound]
      rw [show ⌊(1234567 : ℚ)⌋ = 1234567 from by norm_num]
      rw [if_pos (by norm_num)]
    show intCommas (pyRound (1234567 : ℚ)) = "1,234,567"
    rw [hr]
    decide
  · have h1 : (90/110 : ℚ) * 1000 = 9000/11 := by norm_num
    have hr : pyRound ((90/110 : ℚ) * 1000) = 818 := by
      rw [h1]
      simp only [pyRound]
      rw [show ⌊(9000/11 : ℚ)⌋ = 818 from by norm_num]
      rw [if_pos (by norm_num)]
    show (if (90/110 : ℚ) < 0 then "-" else "") ++
        Nat.repr ((pyRound ((90/110 : ℚ) * 1000)).natAbs / 1000) ++ "." ++
        pad3 ((pyRound ((90/110 : ℚ) * 1000)).natAbs % 1000) = "0.818"
    rw [hr, if_neg (by norm_num)]
    rfl
  · intro q
    refine ⟨(if q < 0 then "-" else "") ++
        Nat.repr ((pyRound (q * 1000)).natAbs / 1000),
      pad3 ((pyRound (q * 1000)).natAbs % 1000), rfl, ?_⟩
    exact pad3_length _ (Nat.mod_lt _ (by norm_num))

/-- Helper: a failing request propagates. -/
theorem fetch_step_err {ε α : Type} {pg : Nat → Except ε (PageJson α)}
    {size mp page : Nat} {e : ε} (h : pg page = .error e) :
    fetch_all_reports pg size (mp + 1) page = .error e := by
  simp only [fetch_all_reports, h]

/-- Helper: an empty page stops with no rows. -/
theorem fetch_step_empty {ε α : Type} {pg : Nat → Except ε (PageJson α)}
    {size mp page : Nat} {js : PageJson α} (h : pg page = .ok js)
    (he : extractRows js = []) :
    fetch_all_reports pg size (mp + 1) page = .ok ([], [page]) := by
  simp only [fetch_all_reports, h, he]
  simp

/-- Helper: a short page stops after keeping its rows. -/
theorem fetch_step_short {ε α : Type} {pg : Nat → Except ε (PageJson α)}
    {size mp page : Nat} {js : PageJson α} (h : pg page = .ok js)
    (hne : extractRows js ≠ []) (hs : (extractRows js).length < size) :
    fetch_all_reports pg size (mp + 1) page =
      .ok (extractRows js, [page]) := by
  simp only [fetch_all_reports, h]
  rw [if_neg (by simpa using hne), if_pos hs]

/-- Helper: a full page keeps its rows and continues. -/
theorem fetch_step_cont {ε α : Type} {pg : Nat → Except ε (PageJson α)}
    {size mp page : Nat} {js : PageJson α} {rest : List α} {reqs : List Nat}
    (h : pg page = .ok js) (hne : extractRows js ≠ [])
    (hs : ¬ (extractRows js).length < size)
    (hrec : fetch_all_reports pg size mp (page + 1) = .ok (rest, reqs)) :
    fetch_all_reports pg size (mp + 1) page =
      .ok (extractRows js ++ rest, page :: reqs) := by
  simp only [fetch_all_reports, h]
  rw [if_neg (by simpa using hne), if_neg hs, hrec]

/-- Helper: an error after a full page propagates. -/
theorem fetch_step_cont_err {ε α : Type} {pg : Nat → Except ε (PageJson α)}
    {size mp page : Nat} {js : PageJson α} {e : ε}
    (h : pg page = .ok js) (hne : extractRows js ≠ [])
    (hs : ¬ (extractRows js).length < size)
    (hrec : fetch_all_reports pg size mp (page + 1) = .error e) :
    fetch_all_reports pg size (mp + 1) page = .error e := by
  simp only [fetch_all_reports, h]
  rw [if_neg (by simpa using hne), if_neg hs, hrec]

/-- C5: pagination over an error-free page environment.  Starting at any
page, the paginator requests consecutive page indices (at most
`max_pages` of them), extracts each page's row list via the
`data`/`items`/`result` fallback, returns all extracted rows concatenated
in request order, keeps requesting only past full nonempty pages, and
stops exactly at an empty page, a short page, or the `max_pages` cap. -/
theorem fetch_all_reports_pagination {α : Type} (pages : Nat → PageJson α)
    (size max_pages start : Nat) :
    ∃ (rows : List α) (reqs : List Nat),
      fetch_all_reports (okPages pages) size max_pages start =
        .ok (rows, reqs) ∧
      reqs.length ≤ max_pages ∧
      reqs = List.range' start reqs.length ∧
      rows = (reqs.map (fun p => extractRows (pages p))).flatten ∧
      (∀ i, i + 1 < reqs.length →
        extractRows (pages (start + i)) ≠ [] ∧
        size ≤ (extractRows (pages (start + i))).length) ∧
      (reqs.length = max_pages ∨
        (reqs ≠ [] ∧
          (extractRows (pages (start + (reqs.length - 1))) = [] ∨
            (extractRows (pages (start + (reqs.length - 1)))).length <
              size))) ∧
      (0 < max_pages → reqs ≠ []) := by
  induction max_pages generalizing start with
  | zero =>
      refine ⟨[], [], rfl, Nat.le_refl 0, rfl, rfl, ?_, Or.inl rfl, ?_⟩
      · intro i hi
        exact absurd hi (by simp)
      · intro h
        exact absurd h (by omega)
  | succ mp ih =>
      by_cases hrows : extractRows (pages start) = []
      · refine ⟨[], [start], fetch_step_empty rfl hrows, by simp, by simp,
          by simp [hrows], ?_, ?_, ?_⟩
        · intro i hi
          simp at hi
        · exact Or.inr ⟨by simp, Or.inl (by simpa using hrows)⟩
        · intro _
          simp
      · by_cases hshort : (extractRows (pages start)).length < size
        · refine ⟨extractRows (pages start), [start],
            fetch_step_short rfl hrows hshort, by simp, by simp,
            by simp, ?_, ?_, ?_⟩
          · intro i hi
            simp at hi
          · exact Or.inr ⟨by simp, Or.inr (by simpa using hshort)⟩
          · intro _
            simp
        · obtain ⟨rest, reqs, hfe, hlen, hrange, hjoin, hfull, hstop, -⟩ :=
            ih (start + 1)
          have hok : fetch_all_reports (okPages pages) size (mp + 1) start =
              .ok (extractRows (pages start) ++ rest, start :: reqs) :=
            fetch_step_cont rfl hrows hshort hfe
          refine ⟨extractRows (pages start) ++ rest, start :: reqs, hok,
            by simpa using hlen, ?_, ?_, ?_, ?_, fun _ => by simp⟩
          · have : List.range' start (reqs.length + 1) =
                start :: List.range' (start + 1) reqs.length := by
              simpa using List.range'_succ start reqs.length 1
            simp only [List.length_cons, this]
            rw [← hrange]
          · simp only [List.map_cons, List.flatten_cons]
            rw [← hjoin]
          · intro i hi
            match i with
            | 0 =>
                refine ⟨by simpa using hrows, ?_⟩
                simpa using Nat.le_of_not_lt hshort
            | j + 1 =>
                have hj : j + 1 < reqs.length := by
                  simpa using hi
                have := hfull j hj
                rwa [show start + 1 + j = start + (j + 1) from by omega] at this
          · rcases hstop with heq | ⟨hne, hlast⟩
            · exact Or.inl (by simp [heq])
            · refine Or.inr ⟨by simp, ?_⟩
              have hpos : 0 < reqs.length := List.length_pos.mpr hne
              rw [show start + ((start :: reqs).length - 1) =
                start + 1 + (reqs.length - 1) from by
                  simp only [List.length_cons]
                  omega]
              exact hlast

/-- C5 witness: three pages of two rows each under a size-2, max-3 run —
the cap stops the iteration with all six rows concatenated in order. -/
theorem fetch_all_reports_pagination_witness :
    ∃ (rows : List Nat) (reqs : List Nat),
      fetch_all_reports
        (okPages (fun p => ⟨some [10 * p, 10 * p + 1], none, none⟩)) 2 3 0 =
        .ok (rows, reqs) ∧
      reqs.length ≤ 3 ∧
      reqs = List.range' 0 reqs.length ∧
      rows = (reqs.map (fun p =>
        extractRows (⟨some [10 * p, 10 * p + 1], none, none⟩ :
          PageJson Nat))).flatten ∧
      (∀ i, i + 1 < reqs.length →
        extractRows (⟨some [10 * i, 10 * i + 1], none, none⟩ :
          PageJson Nat) ≠ [] ∧
        2 ≤ (extractRows (⟨some [10 * i, 10 * i + 1], none, none⟩ :
          PageJson Nat)).length) ∧
      (reqs.length = 3 ∨
        (reqs ≠ [] ∧
          (extractRows (⟨some [10 * (reqs.length - 1),
              10 * (reqs.length - 1) + 1], none, none⟩ : PageJson Nat) = [] ∨
            (extractRows (⟨some [10 * (reqs.length - 1),
              10 * (reqs.length - 1) + 1], none, none⟩ :
                PageJson Nat)).length < 2))) ∧
      (0 < 3 → reqs ≠ []) := by
  have h := fetch_all_reports_pagination
    (fun p => (⟨some [10 * p, 10 * p + 1], none, none⟩ : PageJson Nat)) 2 3 0
  simpa using h

/-- C6: failure policy of the paginated fetch.  Any error result traces
back to a page request that failed; and conversely, when every page
before `j` succeeded with a full nonempty list (so the iteration reaches
`j`) and the request for page `j` fails, the whole fetch returns exactly
that error — the rows gathered from the earlier pages are discarded, no
partial result is returned. -/
theorem fetch_all_reports_error_propagation {ε α : Type}
    (pg : Nat → Except ε (PageJson α)) (size max_pages start : Nat) :
    (∀ e : ε, fetch_all_reports pg size max_pages start = .error e →
      ∃ p, start ≤ p ∧ p < start + max_pages ∧ pg p = .error e) ∧
    (∀ (j : Nat) (e : ε), start ≤ j → j < start + max_pages →
      (∀ p, start ≤ p → p < j → ∃ js, pg p = .ok js ∧
        extractRows js ≠ [] ∧ size ≤ (extractRows js).length) →
      pg j = .error e →
      fetch_all_reports pg size max_pages start = .error e) := by
  induction max_pages generalizing start with
  | zero =>
      constructor
      · intro e h
        simp [fetch_all_reports] at h
      · intro j e hsj hjlt _ _
        exact absurd hjlt (by omega)
  | succ mp ih =>
      constructor
      · intro e h
        cases hpg : pg start with
        | error e0 =>
            rw [fetch_step_err hpg] at h
            simp only [Except.error.injEq] at h
            subst h
            exact ⟨start, Nat.le_refl start, by omega, hpg⟩
        | ok js =>
            by_cases hrows : extractRows js = []
            · rw [fetch_step_empty hpg hrows] at h
              simp at h
            · by_cases hshort : (extractRows js).length < size
              · rw [fetch_step_short hpg hrows hshort] at h
                simp at h
              · cases hrec : fetch_all_reports pg size mp (start + 1) with
                | error e1 =>
                    rw [fetch_step_cont_err hpg hrows hshort hrec] at h
                    simp only [Except.error.injEq] at h
                    subst h
                    obtain ⟨p, hp1, hp2, hp3⟩ := (ih (start + 1)).1 e1 hrec
                    exact ⟨p, by omega, by omega, hp3⟩
                | ok pr =>
                    obtain ⟨rest, reqs⟩ := pr
                    rw [fetch_step_cont hpg hrows hshort hrec] at h
                    simp at h
      · intro j e hsj hjlt hprev hjerr
        by_cases hj : j = start
        · subst hj
          exact fetch_step_err hjerr
        · have hlt : start < j := Nat.lt_of_le_of_ne hsj (Ne.symm hj)
          obtain ⟨js, hjs, hne, hlen⟩ := hprev start (Nat.le_refl start) hlt
          have hrec : fetch_all_reports pg size mp (start + 1) = .error e :=
            (ih (start + 1)).2 j e (by omega) (by omega)
              (fun p hp1 hp2 => hprev p (by omega) hp2) hjerr
          exact fetch_step_cont_err hjs hne (Nat.not_lt.mpr hlen) hrec

/-- C6 witness: page 0 succeeds with a full page of two rows, page 1's
request raises — the whole fetch errors, discarding page 0's rows. -/
theorem fetch_all_reports_error_propagation_witness :
    fetch_all_reports
      (fun p => if p = 0
        then (.ok ⟨some [1, 2], none, none⟩ :
          Except String (PageJson Nat))
        else .error "HTTPError") 2 3 0 = .error "HTTPError" :=
  (fetch_all_reports_error_propagation
    (fun p => if p = 0
      then (.ok ⟨some [1, 2], none, none⟩ : Except String (PageJson Nat))
      else .error "HTTPError") 2 3 0).2 1 "HTTPError" (by omega) (by omega)
    (fun p _ hp2 => by
      have hp0 : p = 0 := by omega
      subst hp0
      exact ⟨⟨some [1, 2], none, none⟩, rfl, by decide, by decide⟩)
    rfl

/-- Helper: the row when the report fetch raised. -/
theorem process_ticker_report_err (today : Date) (env : TickerEnv)
    (t : String) {e : String}
    (hf : fetch_all_reports env.pages PAGE_SIZE MAX_PAGES 0 = .error e) :
    process_ticker today env t =
      ⟨t, priceFetched env, none, 0, none, none, 0,
        priceErrTag env ++ "report_err:" ++ e ++ "; "⟩ := by
  simp only [process_ticker, hf]

/-- Helper: the row when reports arrived but the average is null. -/
theorem process_ticker_ok_none (today : Date) (env : TickerEnv) (t : String)
    {raw : List RawReport} {tr : List Nat}
    (hf : fetch_all_reports env.pages PAGE_SIZE MAX_PAGES 0 = .ok (raw, tr))
    (ha : (build_one_year_report_stats raw today LOOKBACK_YEARS).1 = none) :
    process_ticker today env t =
      ⟨t, priceFetched env, none,
        (build_one_year_report_stats raw today LOOKBACK_YEARS).2.1,
        none, none,
        (build_one_year_report_stats raw today LOOKBACK_YEARS).2.2,
        priceErrTag env ++ "no_1y_reports_or_no_targetPrice; "⟩ := by
  simp only [process_ticker, hf, ha]

/-- Helper: the row when a usable average exists. -/
theorem process_ticker_ok_some (today : Date) (env : TickerEnv) (t : String)
    {raw : List RawReport} {tr : List Nat} {a : ℚ}
    (hf : fetch_all_reports env.pages PAGE_SIZE MAX_PAGES 0 = .ok (raw, tr))
    (ha : (build_one_year_report_stats raw today LOOKBACK_YEARS).1 =
      some a) :
    process_ticker today env t =
      ⟨t, priceFetched env, some (a * REPORT_FACTOR),
        (build_one_year_report_stats raw today LOOKBACK_YEARS).2.1,
        some (a * REPORT_FACTOR * BARGAIN_FACTOR),
        safe_ratio (priceFetched env) (some (.num (a * REPORT_FACTOR))),
        (build_one_year_report_stats raw today LOOKBACK_YEARS).2.2,
        priceErrTag env⟩ := by
  simp only [process_ticker, hf, ha]

/-- Helper: a failed price fetch leaves Current Price as None. -/
theorem priceFetched_err {env : TickerEnv} {e : String}
    (h : env.price = .error e) : priceFetched env = none := by
  simp [priceFetched, h]

/-- Helper: a failed price fetch appends its tag. -/
theorem priceErrTag_err {env : TickerEnv} {e : String}
    (h : env.price = .error e) :
    priceErrTag env = "price_err:" ++ e ++ "; " := by
  simp [priceErrTag, h]

/-- Helper: the row always carries its ticker. -/
theorem process_ticker_stockCode (today : Date) (env : TickerEnv)
    (t : String) : (process_ticker today env t).stockCode = t := by
  cases hf : fetch_all_reports env.pages PAGE_SIZE MAX_PAGES 0 with
  | error e =>
      rw [process_ticker_report_err today env t hf]
  | ok pr =>
      obtain ⟨raw, tr⟩ := pr
      cases ha : (build_one_year_report_stats raw today LOOKBACK_YEARS).1 with
      | none => rw [process_ticker_ok_none today env t hf ha]
      | some a => rw [process_ticker_ok_some today env t hf ha]

/-- C7: the batch emits exactly one row per ticker, in input order, each
carrying its ticker; a price-fetch failure leaves Current Price null and
prepends its tag; a report-fetch failure leaves evaluation, acceptable
price and ratio null with zero counts and appends its tag; absent usable
report data leaves those fields null and appends its tag.  No failure
removes a row — the three clauses hold for every environment, and the
distinct tags identify the failure category. -/
theorem main_row_per_ticker (today : Date) (envs : String → TickerEnv)
    (tickers : List String) :
    (main today envs tickers).length = tickers.length ∧
    (∀ i (h : i < tickers.length),
      (main today envs tickers)[i]? =
        some (process_ticker today (envs tickers[i]) tickers[i]) ∧
      (process_ticker today (envs tickers[i]) tickers[i]).stockCode =
        tickers[i]) ∧
    (∀ (env : TickerEnv) (t e : String), env.price = .error e →
      (process_ticker today env t).currentPrice = none ∧
      ∃ rest, (process_ticker today env t).errors =
        "price_err:" ++ e ++ "; " ++ rest) ∧
    (∀ (env : TickerEnv) (t e : String),
      fetch_all_reports env.pages PAGE_SIZE MAX_PAGES 0 = .error e →
      (process_ticker today env t).reportEvaluation = none ∧
      (process_ticker today env t).acceptablePrice = none ∧
      (process_ticker today env t).ratio = none ∧
      (process_ticker today env t).diversity = 0 ∧
      (process_ticker today env t).reports1y = 0 ∧
      ∃ pre, (process_ticker today env t).errors =
        pre ++ ("report_err:" ++ e ++ "; ")) ∧
    (∀ (env : TickerEnv) (t : String) (raw : List RawReport)
        (tr : List Nat),
      fetch_all_reports env.pages PAGE_SIZE MAX_PAGES 0 = .ok (raw, tr) →
      (build_one_year_report_stats raw today LOOKBACK_YEARS).1 = none →
      (process_ticker today env t).reportEvaluation = none ∧
      (process_ticker today env t).acceptablePrice = none ∧
      (process_ticker today env t).ratio = none ∧
      ∃ pre, (process_ticker today env t).errors =
        pre ++ "no_1y_reports_or_no_targetPrice; ") := by
  refine ⟨List.length_map _ _, ?_, ?_, ?_, ?_⟩
  · intro i h
    constructor
    · rw [main, List.getElem?_map, List.getElem?_eq_getElem h]
      rfl
    · exact process_ticker_stockCode today (envs tickers[i]) tickers[i]
  · intro env t e hpe
    cases hf : fetch_all_reports env.pages PAGE_SIZE MAX_PAGES 0 with
    | error e2 =>
        rw [process_ticker_report_err today env t hf]
        refine ⟨priceFetched_err hpe, "report_err:" ++ e2 ++ "; ", ?_⟩
        show priceErrTag env ++ "report_err:" ++ e2 ++ "; " = _
        rw [priceErrTag_err hpe]
        simp only [String.append_assoc]
    | ok pr =>
        obtain ⟨raw, tr⟩ := pr
        cases ha :
            (build_one_year_report_stats raw today LOOKBACK_YEARS).1 with
        | none =>
            rw [process_ticker_ok_none today env t hf ha]
            refine ⟨priceFetched_err hpe,
              "no_1y_reports_or_no_targetPrice; ", ?_⟩
            show priceErrTag env ++ "no_1y_reports_or_no_targetPrice; " = _
            rw [priceErrTag_err hpe]
        | some a =>
            rw [process_ticker_ok_some today env t hf ha]
            refine ⟨priceFetched_err hpe, "", ?_⟩
            show priceErrTag env = _
            rw [priceErrTag_err hpe]
            exact (String.append_empty _).symm
  · intro env t e hf
    rw [process_ticker_report_err today env t hf]
    exact ⟨rfl, rfl, rfl, rfl, rfl, priceErrTag env,
      by simp only [String.append_assoc]⟩
  · intro env t raw tr hf ha
    rw [process_ticker_ok_none today env t hf ha]
    exact ⟨rfl, rfl, rfl, priceErrTag env, rfl⟩

/-- C7 witness: a single ticker whose price fetch and report fetch both
fail still yields its row, with both tags recorded in order. -/
theorem main_row_per_ticker_witness :
    ((⟨Except.error "Timeout", fun _ => Except.error "HTTPError"⟩ :
        TickerEnv).price = Except.error "Timeout") ∧
    (main ⟨2024, 6, 1⟩
      (fun _ => ⟨Except.error "Timeout", fun _ => Except.error "HTTPError"⟩)
      ["VNM"]).length = 1 ∧
    (process_ticker ⟨2024, 6, 1⟩
      ⟨Except.error "Timeout", fun _ => Except.error "HTTPError"⟩
      "VNM").currentPrice = none :=
  ⟨rfl,
   (main_row_per_ticker ⟨2024, 6, 1⟩
     (fun _ => ⟨Except.error "Timeout", fun _ => Except.error "HTTPError"⟩)
     ["VNM"]).1,
   ((main_row_per_ticker ⟨2024, 6, 1⟩
     (fun _ => ⟨Except.error "Timeout", fun _ => Except.error "HTTPError"⟩)
     ["VNM"]).2.2.1
     ⟨Except.error "Timeout", fun _ => Except.error "HTTPError"⟩
     "VNM" "Timeout" rfl).1⟩

/-- C10: when the aggregator yields a usable average, the row's Report
Evaluation (`averageTarget × 0.9`) and Acceptable Purchase Price
(`evaluation × 0.8`) are set even if the price fetch failed; in that case
Current Price is null and so is the Ratio, because `safe_ratio` receives
a null current price. -/
theorem process_ticker_valuation_without_price (today : Date)
    (env : TickerEnv) (t : String) (raw : List RawReport) (tr : List Nat)
    (a : ℚ)
    (hf : fetch_all_reports env.pages PAGE_SIZE MAX_PAGES 0 = .ok (raw, tr))
    (ha : (build_one_year_report_stats raw today LOOKBACK_YEARS).1 =
      some a) :
    (process_ticker today env t).reportEvaluation =
      some (a * REPORT_FACTOR) ∧
    (process_ticker today env t).acceptablePrice =
      some (a * REPORT_FACTOR * BARGAIN_FACTOR) ∧
    (∀ e, env.price = .error e →
      (process_ticker today env t).currentPrice = none ∧
      (process_ticker today env t).ratio = none) := by
  rw [process_ticker_ok_some today env t hf ha]
  refine ⟨rfl, rfl, ?_⟩
  intro e hpe
  refine ⟨priceFetched_err hpe, ?_⟩
  show safe_ratio (priceFetched env) (some (.num (a * REPORT_FACTOR))) = none
  rw [priceFetched_err hpe]
  rfl

/-- C10 witness: price fetch fails, one in-window report with target 100
arrives — evaluation and acceptable price are set, ratio is null. -/
theorem process_ticker_valuation_without_price_witness :
    (process_ticker ⟨2024, 6, 1⟩
      ⟨Except.error "Timeout",
       fun p => if p = 0
         then .ok ⟨some [⟨some "01/01/2024", some (TVal.num 100), some "A"⟩],
           none, none⟩
         else .error "HTTPError"⟩ "VNM").reportEvaluation ≠ none ∧
    (process_ticker ⟨2024, 6, 1⟩
      ⟨Except.error "Timeout",
       fun p => if p = 0
         then .ok ⟨some [⟨some "01/01/2024", some (TVal.num 100), some "A"⟩],
           none, none⟩
         else .error "HTTPError"⟩ "VNM").currentPrice = none ∧
    (process_ticker ⟨2024, 6, 1⟩
      ⟨Except.error "Timeout",
       fun p => if p = 0
         then .ok ⟨some [⟨some "01/01/2024", some (TVal.num 100), some "A"⟩],
           none, none⟩
         else .error "HTTPError"⟩ "VNM").ratio = none := by
  have h := process_ticker_valuation_without_price ⟨2024, 6, 1⟩
    ⟨Except.error "Timeout",
     fun p => if p = 0
       then .ok ⟨some [⟨some "01/01/2024", some (TVal.num 100), some "A"⟩],
         none, none⟩
       else .error "HTTPError"⟩ "VNM"
    [⟨some "01/01/2024", some (TVal.num 100), some "A"⟩] [0]
    (([(100 : ℚ)].sum) / (([(100 : ℚ)].length : Nat) : ℚ)) rfl rfl
  obtain ⟨h1, h2, h3⟩ := h
  refine ⟨?_, (h3 "Timeout" rfl).1, (h3 "Timeout" rfl).2⟩
  rw [h1]
  simp

end StockPortfolio
